import Mathlib

/-!
Shallow embedding of the pandora AI forecasting service
(src/ai/app.py and src/ai/model.py): the data model, the prediction
pipeline with its demo fallbacks, the sliding-window training-data
preparation, artifact loading, and the single-flight training-job
coordinator.

Numeric reading fields are modelled over ℚ (Python floats); the
anomaly score is ℝ-valued because the model path takes a Euclidean
norm.  Randomness (Python `random.uniform`) is modelled by an explicit
stream `u : ℕ → ℚ` of draws in [0, 1]; `uniform a b x = a + (b - a) * x`
mirrors `random.uniform(a, b)` evaluated at draw `x`.  The opaque
external collaborators (the keras network, the MinMaxScaler, the
artifact store, the measurement source) are parameters of the
operations that consume them, matching the narrow interfaces of the
specification.
-/

namespace Pandora

/-- A sensor reading: the three required numeric fields
(a row `[tds, temperature, moisture]` in model.py). -/
structure Reading where
  tds : ℚ
  temperature : ℚ
  moisture : ℚ
deriving DecidableEq

/-- A reading as it arrives inside a JSON payload: each field may be
absent (`row["tds"]` in `LSTMForecaster.predict` raises `KeyError`
when the key is missing). -/
structure RawReading where
  tds : Option ℚ
  temperature : Option ℚ
  moisture : Option ℚ
deriving DecidableEq

/-- The row `[row["tds"], row["temperature"], row["moisture"]]` of the
`np.array` comprehension in `LSTMForecaster.predict`; an absent key is
a `KeyError`, keys are read in source order. -/
def RawReading.toReading (r : RawReading) : Except String Reading :=
  match r.tds with
  | none => .error "KeyError: tds"
  | some a =>
    match r.temperature with
    | none => .error "KeyError: temperature"
    | some b =>
      match r.moisture with
      | none => .error "KeyError: moisture"
      | some c => .ok (⟨a, b, c⟩ : Reading)

/-- The whole `points` matrix of `LSTMForecaster.predict`: the list
comprehension stops at the first row with a missing key. -/
def toPoints : List RawReading → Except String (List Reading)
  | [] => .ok []
  | r :: rs =>
    match r.toReading with
    | .error e => .error e
    | .ok p =>
      match toPoints rs with
      | .error e => .error e
      | .ok ps => .ok (p :: ps)

/-- A reading flattened back to its three features, as
`scaled[idx+seq : idx+seq+horizon].reshape(-1)` flattens target rows. -/
def Reading.toList (r : Reading) : List ℚ := [r.tds, r.temperature, r.moisture]

/-- Re-rows a flat feature vector into 3-feature readings; models
`y_scaled.reshape(forecast_steps, features)` with `features = 3`,
which is the fixed feature count of the repository. -/
def toTriples : List ℚ → List Reading
  | a :: b :: c :: rest => (⟨a, b, c⟩ : Reading) :: toTriples rest
  | _ => []

/-- Python `random.uniform a b` evaluated at a draw `x ∈ [0, 1]`. -/
def uniform (a b x : ℚ) : ℚ := a + (b - a) * x

/-- The randomness stream only produces draws in [0, 1], which is the
contract of `random.random`-style draws. -/
def ValidDraws (u : ℕ → ℚ) : Prop := ∀ n, 0 ≤ u n ∧ u n ≤ 1

/-- model.py `ModelConfig`: immutable runtime parameters. -/
structure ModelConfig where
  model_path : String
  scaler_path : String
  sequence_length : ℕ
  forecast_steps : ℕ
  features : ℕ
deriving DecidableEq

/-- The fitted `MinMaxScaler` collaborator, reduced to its narrow
interface: `transform` and `inverse_transform` act row by row
(MinMaxScaler is an element-wise per-column affine map). -/
structure Scaler where
  transformRow : Reading → Reading
  invRow : Reading → Reading

/-- The trained keras network, reduced to its narrow interface:
`model.predict` on one window returns the flat output vector of the
final Dense layer (length `forecast_steps * features`). -/
def Engine : Type := List Reading → List ℚ

/-- model.py `LSTMForecaster` instance state. -/
structure LSTMForecaster where
  config : ModelConfig
  scaler : Scaler
  model : Option Engine
  is_demo_mode : Bool

/-- Euclidean distance `np.linalg.norm(actual_next - expected)`
between two readings. -/
noncomputable def dist3 (a b : Reading) : ℝ :=
  Real.sqrt (((a.tds - b.tds) ^ 2 + (a.temperature - b.temperature) ^ 2
    + (a.moisture - b.moisture) ^ 2 : ℚ) : ℝ)

/-- Python `round(x, 4)`: the nearest multiple of 1/10000 (exact
half-ties, where Python rounds to even, do not arise in any statement
below). -/
noncomputable def round4 (x : ℝ) : ℝ :=
  ((Int.floor (x * 10000 + 1 / 2) : ℤ) : ℝ) / 10000

/-- The structure of every response body of `POST /predict` and of the
data field of forecaster results: predicted readings, an anomaly
score, an optional confidence (only the app-level fallback emits one)
and the mode tag. -/
structure ForecastResult where
  predictions : List Reading
  anomaly_score : ℝ
  confidence : Option ℝ
  mode : String

/-- model.py `LSTMForecaster._demo_prediction`: perturbs the latest
point of the sequence by bounded absolute noise, clamped to physical
bounds, with an anomaly score drawn from [0.05, 0.35].  Draw `3*i+j`
feeds field `j` of step `i`; draw `3*forecast_steps` feeds the anomaly
score, matching the evaluation order of the Python code. -/
noncomputable def LSTMForecaster.demo_prediction (f : LSTMForecaster) (u : ℕ → ℚ)
    (sequence : List Reading) : ForecastResult :=
  let latest := sequence.getLastD (⟨0, 0, 0⟩ : Reading)
  { predictions := (List.range f.config.forecast_steps).map (fun i =>
      { tds := max 0 (min 5000 (latest.tds + uniform (-30) 30 (u (3 * i)))),
        temperature := max (-20) (min 60 (latest.temperature + uniform (-(6 / 5)) (6 / 5) (u (3 * i + 1)))),
        moisture := max 0 (min 1000 (latest.moisture + uniform (-20) 20 (u (3 * i + 2)))) }),
    anomaly_score := ((uniform (1 / 20) (7 / 20) (u (3 * f.config.forecast_steps)) : ℚ) : ℝ),
    confidence := none,
    mode := "demo" }

/-- model.py `LSTMForecaster.predict`: validation, demo routing, model
inference and anomaly scoring.  The shape guard mirrors the
`reshape(forecast_steps, features)` call (an incompatible flat length
raises), and the empty `y_pred` case mirrors the `y_pred[0]`
IndexError. -/
noncomputable def LSTMForecaster.predict (f : LSTMForecaster) (u : ℕ → ℚ)
    (sequence : List RawReading) : Except String ForecastResult :=
  if sequence.length = 0 then
    .error "Sequence cannot be empty."
  else
    match toPoints sequence with
    | .error e => .error e
    | .ok points =>
      match f.model, f.is_demo_mode with
      | none, _ => .ok (f.demo_prediction u points)
      | some _, true => .ok (f.demo_prediction u points)
      | some m, false =>
        if points.length < f.config.sequence_length then
          .error ("Sequence requires at least " ++ toString f.config.sequence_length ++ " rows.")
        else
          let window := points.drop (points.length - f.config.sequence_length)
          let scaled := window.map f.scaler.transformRow
          let y_scaled := m scaled
          if y_scaled.length = f.config.forecast_steps * 3 then
            match (toTriples y_scaled).map f.scaler.invRow with
            | [] => .error "index 0 is out of bounds for axis 0 with size 0"
            | actual_next :: rest =>
              let expected := points.getLastD (⟨0, 0, 0⟩ : Reading)
              .ok { predictions := actual_next :: rest,
                    anomaly_score := round4 (min (max (dist3 actual_next expected / 1000) 0) 1),
                    confidence := none,
                    mode := "model" }
          else
            .error "cannot reshape model output"

/-- model.py `LSTMForecaster._prepare_training_data`: raises on
insufficient rows, otherwise fits the scaler on the matrix
(`fit_scaler` models `MinMaxScaler.fit`), scales it and slides the
windows with stride 1.  Returns the fitted scaler together with the
input windows and the flattened target windows. -/
def LSTMForecaster.prepare_training_data (f : LSTMForecaster)
    (fit_scaler : List Reading → Scaler) (data : List Reading) :
    Except String (Scaler × List (List Reading) × List (List ℚ)) :=
  if data.length ≤ f.config.sequence_length + f.config.forecast_steps then
    .error "Insufficient rows for training windows."
  else
    let scaler := fit_scaler data
    let scaled := data.map scaler.transformRow
    let seq := f.config.sequence_length
    let horizon := f.config.forecast_steps
    let idxs := List.range (scaled.length - seq - horizon + 1)
    .ok (scaler,
      idxs.map (fun idx => (scaled.drop idx).take seq),
      idxs.map (fun idx => (((scaled.drop (idx + seq)).take horizon).map Reading.toList).flatten))

/-- The `final_loss` and `final_mae` metrics dictionary returned by
model.py `LSTMForecaster.train`. -/
structure TrainMetrics where
  epochs : ℕ
  final_loss : ℚ
  final_mae : ℚ
deriving DecidableEq

/-- model.py `LSTMForecaster.train`: prepare windows (may raise), build
the network (`built` is the freshly built engine assigned to
`self.model`), fit it (`fit` returns the final loss and mae, or the
training error), persist model and scaler (`save` covers
`model.save` and `joblib.dump`), and only then leave demo mode.
Returns the mutated forecaster together with the outcome, recording
the partial mutations each Python statement had performed before an
exception escaped. -/
def LSTMForecaster.train (f : LSTMForecaster)
    (fit_scaler : List Reading → Scaler) (built : Engine)
    (fit : List (List Reading) → List (List ℚ) → ℕ → ℕ → Except String (ℚ × ℚ))
    (save : Except String Unit)
    (data : List Reading) (epochs batch_size : ℕ) :
    LSTMForecaster × Except String TrainMetrics :=
  match f.prepare_training_data fit_scaler data with
  | .error e => (f, .error e)
  | .ok (scaler, x_train, y_train) =>
    let f1 := { f with scaler := scaler, model := some built }
    match fit x_train y_train epochs batch_size with
    | .error e => (f1, .error e)
    | .ok (final_loss, final_mae) =>
      match save with
      | .error e => (f1, .error e)
      | .ok _ => ({ f1 with is_demo_mode := false }, .ok ⟨epochs, final_loss, final_mae⟩)

/-- The artifact store seen by model.py `LSTMForecaster.load`:
existence of the two files, and the outcome of `load_model` /
`joblib.load` on each (an unreadable artifact is an `.error`). -/
structure ArtifactStore where
  model_exists : Bool
  scaler_exists : Bool
  load_model : Except String Engine
  load_scaler : Except String Scaler

/-- model.py `LSTMForecaster.load`: if both files exist, load them (a
load failure propagates as an exception, with `self.model` already
reassigned when the scaler read is the one that fails); if either file
is absent, clear the model and stay in demo mode.  Returns the
post-call forecaster state and the returned boolean (or the escaped
error). -/
def LSTMForecaster.load (f : LSTMForecaster) (store : ArtifactStore) :
    LSTMForecaster × Except String Bool :=
  if store.model_exists && store.scaler_exists then
    match store.load_model with
    | .error e => (f, .error e)
    | .ok m =>
      match store.load_scaler with
      | .error e => ({ f with model := some m }, .error e)
      | .ok s => ({ f with model := some m, scaler := s, is_demo_mode := false }, .ok true)
  else
    ({ f with model := none, is_demo_mode := true }, .ok false)

/-- The environment configuration the app reads at bootstrap
(`AI_SEQUENCE_LENGTH`, `AI_FORECAST_STEPS`).  When the model stack
fails to import, no `ModelConfig` is built from it, and the fallback
path of the predict route never consults it. -/
structure AppEnv where
  sequence_length : ℕ
  forecast_steps : ℕ
deriving DecidableEq

/-- app.py `_demo_predict`: multiplicative perturbation of the seed
(tds ±10 percent, temperature ±5 percent, moisture ±10 percent) with
no clamping, an anomaly score drawn from [0, 1] and a confidence from
[0.7, 0.95].  The default argument `steps=3` is applied at its only
call site.  Draw order matches the Python evaluation order. -/
noncomputable def demo_predict (seed : Reading) (steps : ℕ) (u : ℕ → ℚ) : ForecastResult :=
  { predictions := (List.range steps).map (fun i =>
      { tds := seed.tds * (1 + uniform (-(1 / 10)) (1 / 10) (u (3 * i))),
        temperature := seed.temperature * (1 + uniform (-(1 / 20)) (1 / 20) (u (3 * i + 1))),
        moisture := seed.moisture * (1 + uniform (-(1 / 10)) (1 / 10) (u (3 * i + 2))) }),
    anomaly_score := ((uniform 0 1 (u (3 * steps)) : ℚ) : ℝ),
    confidence := some ((uniform (7 / 10) (19 / 20) (u (3 * steps + 1)) : ℚ) : ℝ),
    mode := "demo" }

/-- A `POST /predict` JSON body: an optional `sequence` list plus the
optional single-seed fields. -/
structure PredictPayload where
  sequence : Option (List RawReading)
  tds : Option ℚ
  temperature : Option ℚ
  moisture : Option ℚ

/-- The seed reading app.py builds from the payload with the defaults
`tds=0`, `temperature=25`, `moisture=350`. -/
def default_seed (payload : PredictPayload) : RawReading :=
  ⟨some (payload.tds.getD 0), some (payload.temperature.getD 25), some (payload.moisture.getD 350)⟩

/-- app.py `_payload_to_sequence`: a present non-empty sequence list is
used as is; otherwise a sequence of `seq_len` identical default-filled
seed readings is synthesized. -/
def payload_to_sequence (payload : PredictPayload) (seq_len : ℕ) : List RawReading :=
  match payload.sequence with
  | some s => if s.isEmpty then List.replicate seq_len (default_seed payload) else s
  | none => List.replicate seq_len (default_seed payload)

/-- The HTTP response of the `/predict` route. -/
structure PredictResponse where
  status : ℕ
  success : Bool
  data : Option ForecastResult
  error : Option String

/-- app.py route `POST /predict`: when the model stack is unavailable
it answers with `_demo_predict(seed)` (default `steps=3`, the
environment-configured forecast step count is never consulted);
otherwise it feeds `_payload_to_sequence` into `forecaster.predict`,
mapping any exception to a 500 response. -/
noncomputable def predict (_env : AppEnv) (forecaster : Option LSTMForecaster)
    (u : ℕ → ℚ) (payload : PredictPayload) : PredictResponse :=
  match forecaster with
  | none =>
    let seed : Reading := ⟨payload.tds.getD 0, payload.temperature.getD 25, payload.moisture.getD 350⟩
    { status := 200, success := true, data := some (demo_predict seed 3 u), error := none }
  | some f =>
    let sequence := payload_to_sequence payload f.config.sequence_length
    match f.predict u sequence with
    | .ok result => { status := 200, success := true, data := some result, error := none }
    | .error e => { status := 500, success := false, data := none, error := some e }

/-- The `last_result` record the worker stores on success. -/
structure TrainResultData where
  metrics : TrainMetrics
  rows_used : ℕ
  mode : String
deriving DecidableEq

/-- app.py `training_state`: the process-wide training job record. -/
structure TrainingState where
  running : Bool
  started_at : Option String
  finished_at : Option String
  last_error : Option String
  last_result : Option TrainResultData
deriving DecidableEq

/-- The app-level shared mutable state: the single `training_lock`
(held or free) and `training_state`. -/
structure AppState where
  lockHeld : Bool
  training_state : TrainingState
deriving DecidableEq

/-- The HTTP response of `POST /train/start`: status code, success
flag, error, message, and the `{running, epochs, batch_size}` data. -/
structure TrainStartResponse where
  status : ℕ
  success : Bool
  error : Option String
  message : Option String
  data : Option (Bool × ℕ × ℕ)
deriving DecidableEq

/-- app.py route `POST /train/start`: 503 when the stack is
unavailable; a non-blocking lock acquisition that answers 409 without
touching any state when the lock is already held; otherwise it resets
the job record, spawns the worker thread and returns immediately.
The final boolean records whether a worker thread was spawned. -/
def train_start (available : Bool) (st : AppState)
    (payload_epochs payload_batch : Option ℕ) (now : String) :
    AppState × TrainStartResponse × Bool :=
  if available = false then
    (st, ⟨503, false, some "LSTM model stack is unavailable on this runtime.", none, none⟩, false)
  else if st.lockHeld then
    (st, ⟨409, false, some "Training already in progress.", none, none⟩, false)
  else
    let epochs := payload_epochs.getD 10
    let batch_size := payload_batch.getD 16
    ({ lockHeld := true,
       training_state := { running := true, started_at := some now, finished_at := none,
                           last_error := none, last_result := none } },
     ⟨200, true, none, some "Training started in background.", some (true, epochs, batch_size)⟩,
     true)

/-- The outcome of the `try` body of app.py `_train_worker` (matrix
loading, `forecaster.train`, `forecaster.load`): either the success
data (metrics, `rows_used`, the post-reload demo flag) or the caught
exception message. -/
inductive WorkerOutcome where
  | success (metrics : TrainMetrics) (rows_used : ℕ) (is_demo_after : Bool)
  | failure (message : String)

/-- app.py `_train_worker`: records the outcome into
`last_result`/`last_error`, then the `finally` block clears `running`,
stamps `finished_at` and performs exactly one `training_lock.release()`
on every path; the returned ℕ counts the release calls performed. -/
def train_worker (outcome : WorkerOutcome) (st : AppState) (finished : String) : AppState × ℕ :=
  let ts := st.training_state
  let ts1 := match outcome with
    | .success metrics rows is_demo_after =>
      { ts with last_result := some ⟨metrics, rows, if is_demo_after then "demo" else "model"⟩,
                last_error := none }
    | .failure message =>
      { ts with last_error := some message, last_result := none }
  ({ lockHeld := false,
     training_state := { ts1 with running := false, finished_at := some finished } }, 1)

/-! Concrete instances used by witnesses and counterexamples. -/

/-- An identity scaler (a MinMaxScaler fitted to the unit ranges). -/
def idScaler : Scaler := ⟨id, id⟩

/-- A scaler-fitting collaborator that always yields the identity scaler. -/
def fitId : List Reading → Scaler := fun _ => idScaler

/-- The default environment configuration (sequence length 10,
forecast steps 3). -/
def cfgD : ModelConfig := ⟨"lstm_model.h5", "scaler.pkl", 10, 3, 3⟩

/-- A draw stream sitting at the middle of every range. -/
def uHalf : ℕ → ℚ := fun _ => 1 / 2

/-- A draw stream sitting at the top of every range. -/
def uOne : ℕ → ℚ := fun _ => 1

/-- A forecaster in demo mode with no loaded model. -/
def fDemo : LSTMForecaster := ⟨cfgD, idScaler, none, true⟩

/-- A trained engine stub of the right output arity for `cfgD`. -/
def engShort : Engine := fun _ => List.replicate 9 0

/-- A forecaster in model mode. -/
def modelF : LSTMForecaster := ⟨cfgD, idScaler, some engShort, false⟩

/-- The default environment. -/
def envD : AppEnv := ⟨10, 3⟩

/-- An environment configured for five forecast steps. -/
def envD5 : AppEnv := ⟨10, 5⟩

/-- An empty `POST /predict` body. -/
def emptyPayload : PredictPayload := ⟨none, none, none, none⟩

/-- A 13-row training matrix (one row above `seq + horizon` minus one). -/
def data13 : List Reading := List.replicate 13 (⟨1, 2, 3⟩ : Reading)

/-- A 20-row training matrix. -/
def data20 : List Reading := List.replicate 20 (⟨1, 2, 3⟩ : Reading)

/-- An app state whose training slot is held by a running job. -/
def st1 : AppState := ⟨true, ⟨true, some "t0", none, none, none⟩⟩

/-- A one-step, one-row model configuration for the anomaly-score
witness. -/
def cfg1 : ModelConfig := ⟨"m.h5", "s.pkl", 1, 1, 3⟩

/-- An engine predicting the origin. -/
def eng1 : Engine := fun _ => [0, 0, 0]

/-- A model-mode forecaster over `cfg1`. -/
def fW : LSTMForecaster := ⟨cfg1, idScaler, some eng1, false⟩

/-- A fully populated raw reading at distance 5 from the origin. -/
def rw34 : RawReading := ⟨some 3, some 4, some 0⟩

/-- The concrete model-mode prediction used by the anomaly witness. -/
noncomputable def c9res : ForecastResult :=
  (fW.predict uHalf [rw34]).toOption.getD ⟨[], 0, none, ""⟩

/-- The concrete window preparation used by the window-count witness. -/
def c3w : Scaler × List (List Reading) × List (List ℚ) :=
  (fDemo.prepare_training_data fitId data20).toOption.getD (idScaler, [], [])

/-- A payload whose sequence holds a reading with a missing tds field. -/
def badPayload : PredictPayload := ⟨some [⟨none, some 1, some 2⟩], none, none, none⟩

/-- An artifact store where both files exist but the model file is
unreadable. -/
def storeBad : ArtifactStore := ⟨true, true, .error "corrupt artifact", .ok idScaler⟩

/-- An artifact store where both files exist, the model loads, but the
scaler file is unreadable. -/
def storeBadScaler : ArtifactStore := ⟨true, true, .ok engShort, .error "corrupt scaler"⟩

/-- An artifact store missing the model file. -/
def storeMissing : ArtifactStore := ⟨false, true, .error "absent", .error "absent"⟩

/-- A fitting collaborator that always succeeds with unit metrics. -/
def fitOK : List (List Reading) → List (List ℚ) → ℕ → ℕ → Except String (ℚ × ℚ) :=
  fun _ _ _ _ => .ok (1, 1)

/-- An artifact save that succeeds. -/
def saveOK : Except String Unit := .ok ()

/-! Helper lemmas. -/

/-- A successful points conversion preserves the sequence length. -/
theorem toPoints_length : ∀ (rs : List RawReading) (ps : List Reading),
    toPoints rs = .ok ps → ps.length = rs.length := by
  intro rs
  induction rs with
  | nil => intro ps h; simp only [toPoints, Except.ok.injEq] at h; subst h; rfl
  | cons a l ih =>
    intro ps h
    unfold toPoints at h
    split at h
    · simp at h
    · split at h
      · simp at h
      · rename_i p hp ps0 hps
        simp only [Except.ok.injEq] at h
        subst h
        simp [ih ps0 hps]

/-- Converting a replicated complete raw reading succeeds with the
replicated reading. -/
theorem toPoints_replicate (n : ℕ) (a b c : ℚ) :
    toPoints (List.replicate n (⟨some a, some b, some c⟩ : RawReading))
      = .ok (List.replicate n (⟨a, b, c⟩ : Reading)) := by
  induction n with
  | zero => rfl
  | succ k ih => simp [List.replicate, toPoints, RawReading.toReading, ih]

/-- An incomplete raw reading converts to a `KeyError`. -/
theorem toReading_error_of_incomplete (r : RawReading)
    (h : r.tds = none ∨ r.temperature = none ∨ r.moisture = none) :
    ∃ e, r.toReading = .error e := by
  rcases h with h | h | h
  · exact ⟨"KeyError: tds", by unfold RawReading.toReading; rw [h]⟩
  · cases htds : r.tds with
    | none => exact ⟨"KeyError: tds", by unfold RawReading.toReading; rw [htds]⟩
    | some a => exact ⟨"KeyError: temperature", by unfold RawReading.toReading; rw [htds, h]⟩
  · cases htds : r.tds with
    | none => exact ⟨"KeyError: tds", by unfold RawReading.toReading; rw [htds]⟩
    | some a =>
      cases htemp : r.temperature with
      | none => exact ⟨"KeyError: temperature", by unfold RawReading.toReading; rw [htds, htemp]⟩
      | some b => exact ⟨"KeyError: moisture", by unfold RawReading.toReading; rw [htds, htemp, h]⟩

/-- A sequence containing an incomplete reading fails to convert. -/
theorem toPoints_error_of_incomplete :
    ∀ (rs : List RawReading) (r : RawReading), r ∈ rs →
      (r.tds = none ∨ r.temperature = none ∨ r.moisture = none) →
      ∃ e, toPoints rs = .error e := by
  intro rs
  induction rs with
  | nil => intro r hr _; simp at hr
  | cons a l ih =>
    intro r hr hbad
    rcases List.mem_cons.mp hr with h | h
    · subst h
      obtain ⟨e, he⟩ := toReading_error_of_incomplete r hbad
      exact ⟨e, by unfold toPoints; rw [he]⟩
    · cases hA : a.toReading with
      | error e => exact ⟨e, by unfold toPoints; rw [hA]⟩
      | ok p =>
        obtain ⟨e, he⟩ := ih r h hbad
        exact ⟨e, by unfold toPoints; rw [hA, he]⟩

/-- Re-rowing a flat vector yields one reading per three entries. -/
theorem toTriples_length : ∀ (l : List ℚ), (toTriples l).length = l.length / 3
  | [] => rfl
  | [_] => by simp [toTriples]
  | [_, _] => by simp [toTriples]
  | _ :: _ :: _ :: rest => by
    have ih := toTriples_length rest
    simp only [toTriples, List.length_cons, ih]
    omega

/-- `random.uniform a b` stays inside `[a, b]` for a valid draw. -/
theorem uniform_mem {a b x : ℚ} (hab : a ≤ b) (h0 : 0 ≤ x) (h1 : x ≤ 1) :
    a ≤ uniform a b x ∧ uniform a b x ≤ b := by
  unfold uniform
  constructor <;> nlinarith

/-- The clamp-then-round of the model anomaly score lands in [0, 1]. -/
theorem round4_clamp_mem (x : ℝ) :
    0 ≤ round4 (min (max x 0) 1) ∧ round4 (min (max x 0) 1) ≤ 1 := by
  have hy0 : (0:ℝ) ≤ min (max x 0) 1 := le_min (le_max_right x 0) zero_le_one
  have hy1 : min (max x 0) 1 ≤ 1 := min_le_right _ _
  unfold round4
  constructor
  · have hfl : (0:ℤ) ≤ Int.floor (min (max x 0) 1 * 10000 + 1 / 2) := by
      apply Int.floor_nonneg.mpr
      nlinarith
    have : (0:ℝ) ≤ ((Int.floor (min (max x 0) 1 * 10000 + 1 / 2) : ℤ) : ℝ) := by
      exact_mod_cast hfl
    positivity
  · have hfl : Int.floor (min (max x 0) 1 * 10000 + 1 / 2) ≤ 10000 := by
      have h1 : min (max x 0) 1 * 10000 + 1 / 2 ≤ (10000:ℝ) + 1 / 2 := by nlinarith
      have h2 : Int.floor ((10000:ℝ) + 1 / 2) = 10000 := by
        rw [Int.floor_eq_iff]
        norm_num
      calc Int.floor (min (max x 0) 1 * 10000 + 1 / 2)
          ≤ Int.floor ((10000:ℝ) + 1 / 2) := Int.floor_le_floor h1
        _ = 10000 := h2
    rw [div_le_one (by norm_num)]
    exact_mod_cast hfl

/-- The middle-of-range draw stream is valid. -/
theorem uHalf_valid : ValidDraws uHalf := by
  intro n
  refine ⟨?_, ?_⟩ <;> norm_num [uHalf]

/-! C1: rejected concurrent training start. -/

/-- C1: while the training slot is held, `train_start` answers 409
with the conflict message, spawns no worker, and leaves the app state
(lock and every `training_state` field) exactly unchanged. -/
theorem c1_conflict (st : AppState) (payload_epochs payload_batch : Option ℕ) (now : String)
    (h : st.lockHeld = true) :
    train_start true st payload_epochs payload_batch now
      = (st, ⟨409, false, some "Training already in progress.", none, none⟩, false) := by
  simp [train_start, h]

/-- C1 witness: the conflict response at a concrete held-slot state. -/
theorem c1_conflict_witness :
    train_start true st1 none none "t1"
      = (st1, ⟨409, false, some "Training already in progress.", none, none⟩, false) :=
  c1_conflict st1 none none "t1" rfl

/-! C2: worker completion invariants. -/

/-- C2: on every outcome the training worker clears `running`, stamps
`finished_at`, releases the lock exactly once, and populates exactly
one of `last_error` (failure) and `last_result` (success). -/
theorem c2_worker (outcome : WorkerOutcome) (st : AppState) (finished : String) :
    ((train_worker outcome st finished).1.training_state.running = false)
    ∧ ((train_worker outcome st finished).1.training_state.finished_at = some finished)
    ∧ ((train_worker outcome st finished).1.lockHeld = false)
    ∧ ((train_worker outcome st finished).2 = 1)
    ∧ ((train_worker outcome st finished).1.training_state.last_error.isSome
        = !(train_worker outcome st finished).1.training_state.last_result.isSome)
    ∧ (∀ metrics rows d, outcome = .success metrics rows d →
        (train_worker outcome st finished).1.training_state.last_error = none
        ∧ ((train_worker outcome st finished).1.training_state.last_result).isSome = true)
    ∧ (∀ message, outcome = .failure message →
        (train_worker outcome st finished).1.training_state.last_error = some message
        ∧ (train_worker outcome st finished).1.training_state.last_result = none) := by
  cases outcome <;> simp [train_worker]

/-- C2 witness: the completion invariants at a concrete failed run. -/
theorem c2_worker_witness :
    (train_worker (.failure "boom") st1 "t1").1.training_state.running = false
    ∧ (train_worker (.failure "boom") st1 "t1").1.training_state.last_error = some "boom" := by
  have h := c2_worker (.failure "boom") st1 "t1"
  exact ⟨h.1, (h.2.2.2.2.2.2 "boom" rfl).1⟩

/-! C3: sliding-window pair count. -/

/-- C3 counterexample: on a 13-row matrix with `sequence_length = 10`
and `forecast_steps = 3` the window builder raises although
`max 0 (T - sequence_length - forecast_steps + 1) = 1` is positive, so
the claimed raise condition (count ≤ 0) is wrong. -/
theorem c3_counterexample :
    fDemo.prepare_training_data fitId data13 = .error "Insufficient rows for training windows."
    ∧ max 0 ((13:ℤ) - 10 - 3 + 1) ≠ 0 :=
  ⟨rfl, by decide⟩

/-- C3 (corrected): the window builder raises the insufficient-data
error exactly when `T ≤ sequence_length + forecast_steps` (count ≤ 1),
and otherwise yields exactly `T - sequence_length - forecast_steps + 1`
input/target window pairs. -/
theorem c3_amended (f : LSTMForecaster) (fit_scaler : List Reading → Scaler) (data : List Reading) :
    (data.length ≤ f.config.sequence_length + f.config.forecast_steps →
      f.prepare_training_data fit_scaler data = .error "Insufficient rows for training windows.")
    ∧ (∀ scaler x y, f.prepare_training_data fit_scaler data = .ok (scaler, x, y) →
        x.length = data.length - f.config.sequence_length - f.config.forecast_steps + 1
        ∧ y.length = x.length
        ∧ f.config.sequence_length + f.config.forecast_steps < data.length) := by
  constructor
  · intro h
    simp [LSTMForecaster.prepare_training_data, h]
  · intro scaler x y h
    unfold LSTMForecaster.prepare_training_data at h
    split at h
    · simp at h
    · rename_i hlen
      simp only [Except.ok.injEq, Prod.mk.injEq] at h
      obtain ⟨-, hx, hy⟩ := h
      subst hx
      subst hy
      refine ⟨by simp, by simp, by omega⟩

/-- C3 witness: the corrected count at concrete inputs — 13 rows raise,
20 rows give 8 pairs. -/
theorem c3_amended_witness :
    fDemo.prepare_training_data fitId data13 = .error "Insufficient rows for training windows."
    ∧ c3w.2.1.length = 8 ∧ c3w.2.2.length = 8 := by
  have h20 := (c3_amended fDemo fitId data20).2 c3w.1 c3w.2.1 c3w.2.2 rfl
  exact ⟨(c3_amended fDemo fitId data13).1 (by decide),
    h20.1.trans (by decide), (h20.2.1.trans h20.1).trans (by decide)⟩

/-! C4: empty or malformed sequences do not produce a 4xx validation
failure. -/

/-- C4 counterexample: the concrete payload with `sequence = []` is
answered with a successful 200 forecast, not a validation failure. -/
theorem c4_counterexample :
    (predict envD (some fDemo) uHalf ⟨some [], none, none, none⟩).success = true
    ∧ (predict envD (some fDemo) uHalf ⟨some [], none, none, none⟩).status = 200 :=
  ⟨rfl, rfl⟩

/-- C4 (corrected): an empty or absent sequence is not rejected — it is
replaced by a synthesized default sequence and predicted; a non-empty
sequence containing a reading missing one of the three required fields
fails with the KeyError surfaced as a 500 server error, not a 4xx
validation error. -/
theorem c4_amended (f : LSTMForecaster) (env : AppEnv) (u : ℕ → ℚ) (payload : PredictPayload)
    (rs : List RawReading) (r : RawReading)
    (hseq : payload.sequence = some rs) (hne : rs.isEmpty = false)
    (hmem : r ∈ rs) (hbad : r.tds = none ∨ r.temperature = none ∨ r.moisture = none) :
    (predict env (some f) u payload).status = 500
    ∧ (predict env (some f) u payload).success = false := by
  obtain ⟨e, he⟩ := toPoints_error_of_incomplete rs r hmem hbad
  have hlen : ¬rs.length = 0 := by
    cases rs
    · simp at hne
    · simp
  have hseq2 : payload_to_sequence payload f.config.sequence_length = rs := by
    unfold payload_to_sequence
    rw [hseq]
    simp [hne]
  have hpred : f.predict u rs = .error e := by
    unfold LSTMForecaster.predict
    rw [if_neg hlen, he]
  constructor <;> simp [predict, hseq2, hpred]

/-- C4 witness: the 500 response at a concrete payload holding a
reading missing its tds field. -/
theorem c4_amended_witness :
    (predict envD (some fDemo) uHalf badPayload).status = 500
    ∧ (predict envD (some fDemo) uHalf badPayload).success = false :=
  c4_amended fDemo envD uHalf badPayload [⟨none, some 1, some 2⟩] ⟨none, some 1, some 2⟩
    rfl rfl (by simp) (Or.inl rfl)

/-! C5: short sequences and demo routing. -/

/-- C5 counterexample: in model mode, a valid non-empty sequence
shorter than `sequence_length` makes `predict` fail instead of falling
back to the demo generator. -/
theorem c5_counterexample :
    modelF.predict uHalf [rw34] = .error "Sequence requires at least 10 rows." :=
  rfl

/-- C5 (corrected): `predict` routes to the demo generator seeded with
the last available reading exactly when the loaded model is absent or
the demo flag is set; in model mode a valid sequence shorter than
`sequence_length` fails with an error rather than falling back. -/
theorem c5_amended :
    (∀ (f : LSTMForecaster) (u : ℕ → ℚ) (rs : List RawReading) (points : List Reading),
        ¬rs.length = 0 → toPoints rs = .ok points →
        (f.model = none ∨ f.is_demo_mode = true) →
        f.predict u rs = .ok (f.demo_prediction u points)
        ∧ (f.demo_prediction u points).predictions.length = f.config.forecast_steps
        ∧ f.demo_prediction u points
            = f.demo_prediction u [points.getLastD (⟨0, 0, 0⟩ : Reading)])
    ∧ (∀ (f : LSTMForecaster) (m : Engine) (u : ℕ → ℚ) (rs : List RawReading)
        (points : List Reading),
        f.model = some m → f.is_demo_mode = false →
        toPoints rs = .ok points →
        ¬rs.length = 0 → points.length < f.config.sequence_length →
        f.predict u rs
          = .error ("Sequence requires at least " ++ toString f.config.sequence_length
              ++ " rows.")) := by
  constructor
  · intro f u rs points h0 hp hdemo
    refine ⟨?_, by simp [LSTMForecaster.demo_prediction], by simp [LSTMForecaster.demo_prediction]⟩
    unfold LSTMForecaster.predict
    rw [if_neg h0, hp]
    rcases hdemo with hm | hd
    · rw [hm]
    · rcases hmodel : f.model with - | m
      · rfl
      · rw [hd]
  · intro f m u rs points hm hd hp h0 hlt
    unfold LSTMForecaster.predict
    rw [if_neg h0, hp, hm, hd]
    simp [hlt]

/-- C5 witness: demo routing succeeds at a one-reading sequence in demo
mode, and the same sequence fails in model mode. -/
theorem c5_amended_witness :
    fDemo.predict uHalf [rw34] = .ok (fDemo.demo_prediction uHalf [(⟨3, 4, 0⟩ : Reading)])
    ∧ modelF.predict uHalf [rw34]
      = .error ("Sequence requires at least " ++ toString modelF.config.sequence_length
          ++ " rows.") := by
  have h1 := c5_amended.1 fDemo uHalf [rw34] [⟨3, 4, 0⟩] (by simp) rfl (Or.inl rfl)
  have h2 := c5_amended.2 modelF engShort uHalf [rw34] [⟨3, 4, 0⟩] rfl rfl rfl (by simp)
    (by decide)
  exact ⟨h1.1, h2⟩

/-! C6: mode-flag transitions. -/

/-- C6 counterexample: both artifacts exist but the model file is
unreadable — `load` propagates the error and leaves the forecaster
(mode flag and model reference included) exactly as it was, instead of
setting `is_demo_mode` and clearing the model. -/
theorem c6_counterexample :
    storeBad.model_exists = true ∧ storeBad.scaler_exists = true
    ∧ modelF.load storeBad = (modelF, .error "corrupt artifact")
    ∧ modelF.is_demo_mode = false :=
  ⟨rfl, rfl, rfl, rfl⟩

/-- C6 (corrected): the demo flag drops to false only through a load
with both artifacts present that returns true, or a successful
training run; when either artifact is absent, `load` sets the demo
flag and clears the model; when both exist but a load raises, the
error propagates with the demo flag left unchanged — the model
reference is untouched when the model read fails, but has already been
reassigned to the freshly loaded model when the scaler read is the one
that fails; a failed training run leaves the demo flag unchanged. -/
theorem c6_amended :
    (∀ (f : LSTMForecaster) (store : ArtifactStore),
        (f.load store).1.is_demo_mode = false →
        f.is_demo_mode = false
        ∨ (store.model_exists = true ∧ store.scaler_exists = true
            ∧ (f.load store).2 = .ok true))
    ∧ (∀ (f : LSTMForecaster) (store : ArtifactStore),
        (store.model_exists && store.scaler_exists) = false →
        (f.load store).1.is_demo_mode = true ∧ (f.load store).1.model = none)
    ∧ (∀ (f : LSTMForecaster) (store : ArtifactStore) (e : String),
        (f.load store).2 = .error e →
        (f.load store).1.is_demo_mode = f.is_demo_mode)
    ∧ (∀ (f : LSTMForecaster) (store : ArtifactStore) (e : String),
        store.model_exists = true → store.scaler_exists = true →
        store.load_model = .error e →
        f.load store = (f, .error e))
    ∧ (∀ (f : LSTMForecaster) (store : ArtifactStore) (m : Engine) (e : String),
        store.model_exists = true → store.scaler_exists = true →
        store.load_model = .ok m → store.load_scaler = .error e →
        f.load store = ({ f with model := some m }, .error e))
    ∧ (∀ (f : LSTMForecaster) (fit_scaler : List Reading → Scaler) (built : Engine)
        (fit : List (List Reading) → List (List ℚ) → ℕ → ℕ → Except String (ℚ × ℚ))
        (save : Except String Unit) (data : List Reading) (epochs batch_size : ℕ)
        (metrics : TrainMetrics),
        (f.train fit_scaler built fit save data epochs batch_size).2 = .ok metrics →
        (f.train fit_scaler built fit save data epochs batch_size).1.is_demo_mode = false)
    ∧ (∀ (f : LSTMForecaster) (fit_scaler : List Reading → Scaler) (built : Engine)
        (fit : List (List Reading) → List (List ℚ) → ℕ → ℕ → Except String (ℚ × ℚ))
        (save : Except String Unit) (data : List Reading) (epochs batch_size : ℕ)
        (e : String),
        (f.train fit_scaler built fit save data epochs batch_size).2 = .error e →
        (f.train fit_scaler built fit save data epochs batch_size).1.is_demo_mode
          = f.is_demo_mode) := by
  refine ⟨?_, ?_, ?_, ?_, ?_, ?_, ?_⟩
  · intro f store h
    unfold LSTMForecaster.load at h ⊢
    split at h
    · rename_i hex
      rw [Bool.and_eq_true] at hex
      obtain ⟨h1, h2⟩ := hex
      split at h
      · exact Or.inl h
      · split at h
        · exact Or.inl h
        · refine Or.inr ⟨h1, h2, ?_⟩
          simp_all
    · simp at h
  · intro f store h
    unfold LSTMForecaster.load
    rw [if_neg (by simp [h])]
    exact ⟨rfl, rfl⟩
  · intro f store e h
    unfold LSTMForecaster.load at h ⊢
    split at h
    · rename_i hex
      split at h
      · rw [if_pos hex]
      · split at h
        · rw [if_pos hex]
        · simp at h
    · simp at h
  · intro f store e hm hs he
    unfold LSTMForecaster.load
    rw [if_pos (by simp [hm, hs]), he]
  · intro f store m e hme hse hm hs
    unfold LSTMForecaster.load
    rw [if_pos (by simp [hme, hse]), hm, hs]
  · intro f fit_scaler built fit save data epochs batch_size metrics h
    unfold LSTMForecaster.train at h ⊢
    split at h
    · simp at h
    · split at h
      · simp at h
      · split at h
        · simp at h
        · rfl
  · intro f fit_scaler built fit save data epochs batch_size e h
    unfold LSTMForecaster.train at h ⊢
    split at h
    · rfl
    · split at h
      · rfl
      · split at h
        · rfl
        · simp at h

/-- C6 witness: the corrected transitions at concrete inputs — a
missing artifact forces demo mode and clears the model, an unreadable
model file propagates without touching the state, an unreadable scaler
file propagates with the demo flag untouched but the model reference
already reassigned, and a successful training run leaves demo mode. -/
theorem c6_amended_witness :
    ((fDemo.load storeMissing).1.is_demo_mode = true ∧ (fDemo.load storeMissing).1.model = none)
    ∧ (fDemo.load storeBad).1.is_demo_mode = fDemo.is_demo_mode
    ∧ modelF.load storeBad = (modelF, .error "corrupt artifact")
    ∧ fDemo.load storeBadScaler = ({ fDemo with model := some engShort }, .error "corrupt scaler")
    ∧ (fDemo.train fitId engShort fitOK saveOK data20 5 16).1.is_demo_mode = false :=
  ⟨c6_amended.2.1 fDemo storeMissing rfl,
   c6_amended.2.2.1 fDemo storeBad "corrupt artifact" rfl,
   c6_amended.2.2.2.1 modelF storeBad "corrupt artifact" rfl rfl rfl,
   c6_amended.2.2.2.2.1 fDemo storeBadScaler engShort "corrupt scaler" rfl rfl rfl rfl,
   c6_amended.2.2.2.2.2.1 fDemo fitId engShort fitOK saveOK data20 5 16 ⟨5, 1, 1⟩ rfl⟩

/-! C7 and C9 rest on a case analysis of every successful prediction. -/

/-- A rational cast is monotone into ℝ. -/
theorem ratCast_le_of_le {a b : ℚ} (h : a ≤ b) : (a : ℝ) ≤ (b : ℝ) := by
  exact_mod_cast h

/-- Shape, mode and anomaly-score range of the model-level demo
generator. -/
theorem demo_prediction_spec (f : LSTMForecaster) (u : ℕ → ℚ) (sequence : List Reading)
    (hu : ValidDraws u) :
    (f.demo_prediction u sequence).predictions.length = f.config.forecast_steps
    ∧ (f.demo_prediction u sequence).mode = "demo"
    ∧ (1 / 20 : ℝ) ≤ (f.demo_prediction u sequence).anomaly_score
    ∧ (f.demo_prediction u sequence).anomaly_score ≤ 7 / 20 := by
  have hq := @uniform_mem (1 / 20) (7 / 20) (u (3 * f.config.forecast_steps)) (by norm_num)
    (hu _).1 (hu _).2
  refine ⟨by simp [LSTMForecaster.demo_prediction], rfl, ?_, ?_⟩
  · have h := ratCast_le_of_le hq.1
    push_cast at h
    exact h
  · have h := ratCast_le_of_le hq.2
    push_cast at h
    exact h

/-- Case analysis of a successful `LSTMForecaster.predict`: the points
convert, and the result is either the demo prediction (model absent or
demo flag set) or the model-path result with its shape and
anomaly-score formula. -/
theorem predict_ok_cases (f : LSTMForecaster) (u : ℕ → ℚ) (rs : List RawReading)
    (r : ForecastResult) (hok : f.predict u rs = .ok r) :
    ∃ points, toPoints rs = .ok points
      ∧ (((f.model = none ∨ f.is_demo_mode = true) ∧ r = f.demo_prediction u points)
        ∨ (f.is_demo_mode = false
            ∧ r.mode = "model"
            ∧ r.predictions.length = f.config.forecast_steps
            ∧ r.anomaly_score
              = round4 (min (max (dist3 (r.predictions.headD (⟨0, 0, 0⟩ : Reading))
                  (points.getLastD (⟨0, 0, 0⟩ : Reading)) / 1000) 0) 1))) := by
  unfold LSTMForecaster.predict at hok
  split at hok
  · simp at hok
  · split at hok
    · simp at hok
    · rename_i points hpts
      refine ⟨points, hpts, ?_⟩
      split at hok
      · rename_i hm
        simp only [Except.ok.injEq] at hok
        exact Or.inl ⟨Or.inl hm, hok.symm⟩
      · rename_i hd
        simp only [Except.ok.injEq] at hok
        exact Or.inl ⟨Or.inr hd, hok.symm⟩
      · rename_i m hm hd
        split at hok
        · simp at hok
        · dsimp only at hok
          split at hok
          · split at hok
            · simp at hok
            · rename_i actual rest hlist
              simp only [Except.ok.injEq] at hok
              subst hok
              refine Or.inr ⟨hd, rfl, ?_, rfl⟩
              have hlen := congrArg List.length hlist
              simp only [List.length_map, toTriples_length, List.length_cons] at hlen
              dsimp only
              simp only [List.length_cons]
              omega
          · simp at hok

/-! C7: shape of successful predict responses. -/

/-- C7 counterexample: with the environment configured for five
forecast steps and the model stack unavailable, the predict route
answers with exactly three predicted readings (the hardcoded
`_demo_predict` default), not `forecast_steps` of them. -/
theorem c7_counterexample :
    ((predict envD5 none uHalf emptyPayload).data.map (fun r => r.predictions.length)) = some 3
    ∧ envD5.forecast_steps = 5 :=
  ⟨rfl, rfl⟩

/-- C7 (corrected): every successful forecaster prediction carries a
mode tag in the demo/model pair, exactly `forecast_steps` readings and
an anomaly score in [0, 1]; the stack-unavailable fallback responds
with mode demo, an anomaly score in [0, 1], and exactly 3 readings —
the hardcoded default, which matches `forecast_steps` only under the
default configuration. -/
theorem c7_amended :
    (∀ (f : LSTMForecaster) (u : ℕ → ℚ) (rs : List RawReading) (r : ForecastResult),
        ValidDraws u → f.predict u rs = .ok r →
        (r.mode = "demo" ∨ r.mode = "model")
        ∧ r.predictions.length = f.config.forecast_steps
        ∧ (0 : ℝ) ≤ r.anomaly_score ∧ r.anomaly_score ≤ 1)
    ∧ (∀ (env : AppEnv) (u : ℕ → ℚ) (payload : PredictPayload) (r : ForecastResult),
        ValidDraws u → (predict env none u payload).data = some r →
        r.predictions.length = 3 ∧ r.mode = "demo"
        ∧ (0 : ℝ) ≤ r.anomaly_score ∧ r.anomaly_score ≤ 1) := by
  constructor
  · intro f u rs r hu hok
    obtain ⟨points, -, hcase⟩ := predict_ok_cases f u rs r hok
    rcases hcase with ⟨-, hr⟩ | ⟨-, hmode, hlen, hscore⟩
    · subst hr
      obtain ⟨hlen, hmode, hlo, hhi⟩ := demo_prediction_spec f u points hu
      exact ⟨Or.inl hmode, hlen, by linarith, by linarith⟩
    · have hb := round4_clamp_mem (dist3 (r.predictions.headD (⟨0, 0, 0⟩ : Reading))
        (points.getLastD (⟨0, 0, 0⟩ : Reading)) / 1000)
      rw [← hscore] at hb
      exact ⟨Or.inr hmode, hlen, hb.1, hb.2⟩
  · intro env u payload r hu hr
    unfold predict at hr
    simp only [Option.some.injEq] at hr
    subst hr
    have hq := @uniform_mem 0 1 (u (3 * 3)) (by norm_num) (hu _).1 (hu _).2
    refine ⟨by simp [demo_predict], rfl, ?_, ?_⟩
    · have h := ratCast_le_of_le hq.1
      push_cast at h
      exact h
    · have h := ratCast_le_of_le hq.2
      push_cast at h
      exact h

/-- C7 witness: the shape facts at a concrete demo-mode prediction and
at a concrete stack-unavailable response. -/
theorem c7_amended_witness :
    ((fDemo.demo_prediction uHalf [(⟨3, 4, 0⟩ : Reading)]).mode = "demo"
      ∨ (fDemo.demo_prediction uHalf [(⟨3, 4, 0⟩ : Reading)]).mode = "model")
    ∧ (fDemo.demo_prediction uHalf [(⟨3, 4, 0⟩ : Reading)]).predictions.length
        = fDemo.config.forecast_steps
    ∧ ((demo_predict (⟨0, 25, 350⟩ : Reading) 3 uHalf).predictions.length = 3
        ∧ (0 : ℝ) ≤ (demo_predict (⟨0, 25, 350⟩ : Reading) 3 uHalf).anomaly_score) := by
  have h1 := c7_amended.1 fDemo uHalf [rw34] (fDemo.demo_prediction uHalf [(⟨3, 4, 0⟩ : Reading)])
    uHalf_valid rfl
  have h2 := c7_amended.2 envD uHalf emptyPayload (demo_predict (⟨0, 25, 350⟩ : Reading) 3 uHalf)
    uHalf_valid rfl
  exact ⟨h1.1, h1.2.1, h2.1, h2.2.2.1⟩

/-! C8: demo generator bounds. -/

/-- C8 counterexample: the app-level fallback generator, fed a seed at
the physical bounds and a top-of-range draw, produces a first reading
with tds 5500 > 5000 and temperature 63 > 60 — its fields are not
clamped to the physical bounds. -/
theorem c8_counterexample :
    5000 < ((demo_predict (⟨5000, 60, 1000⟩ : Reading) 3 uOne).predictions.headD
        (⟨0, 0, 0⟩ : Reading)).tds
    ∧ 60 < ((demo_predict (⟨5000, 60, 1000⟩ : Reading) 3 uOne).predictions.headD
        (⟨0, 0, 0⟩ : Reading)).temperature := by
  constructor
  · show (5000 : ℚ) < 5000 * (1 + uniform (-(1 / 10)) (1 / 10) (uOne 0))
    norm_num [uniform, uOne]
  · show (60 : ℚ) < 60 * (1 + uniform (-(1 / 20)) (1 / 20) (uOne 1))
    norm_num [uniform, uOne]

/-- C8 (corrected): the model-level demo generator yields
`forecast_steps` readings clamped to the physical bounds with an
anomaly score in [0.05, 0.35] and mode demo; the app-level
stack-unavailable fallback yields `steps` readings perturbed
multiplicatively with no clamping, an anomaly score in [0, 1], and
mode demo. -/
theorem c8_amended (f : LSTMForecaster) (u : ℕ → ℚ) (sequence : List Reading)
    (hu : ValidDraws u) :
    (f.demo_prediction u sequence).predictions.length = f.config.forecast_steps
    ∧ (∀ p ∈ (f.demo_prediction u sequence).predictions,
        0 ≤ p.tds ∧ p.tds ≤ 5000 ∧ -20 ≤ p.temperature ∧ p.temperature ≤ 60
        ∧ 0 ≤ p.moisture ∧ p.moisture ≤ 1000)
    ∧ (1 / 20 : ℝ) ≤ (f.demo_prediction u sequence).anomaly_score
    ∧ (f.demo_prediction u sequence).anomaly_score ≤ 7 / 20
    ∧ (f.demo_prediction u sequence).mode = "demo"
    ∧ (∀ (seed : Reading) (steps : ℕ),
        (demo_predict seed steps u).predictions.length = steps
        ∧ (0 : ℝ) ≤ (demo_predict seed steps u).anomaly_score
        ∧ (demo_predict seed steps u).anomaly_score ≤ 1
        ∧ (demo_predict seed steps u).mode = "demo") := by
  obtain ⟨hlen, hmode, hlo, hhi⟩ := demo_prediction_spec f u sequence hu
  refine ⟨hlen, ?_, hlo, hhi, hmode, ?_⟩
  · intro p hp
    simp only [LSTMForecaster.demo_prediction, List.mem_map, List.mem_range] at hp
    obtain ⟨i, -, hpi⟩ := hp
    subst hpi
    refine ⟨le_max_left 0 _, max_le (by norm_num) (min_le_left _ _),
      le_max_left (-20) _, max_le (by norm_num) (min_le_left _ _),
      le_max_left 0 _, max_le (by norm_num) (min_le_left _ _)⟩
  · intro seed steps
    have hq := @uniform_mem 0 1 (u (3 * steps)) (by norm_num) (hu _).1 (hu _).2
    refine ⟨by simp [demo_predict], ?_, ?_, rfl⟩
    · have h := ratCast_le_of_le hq.1
      push_cast at h
      exact h
    · have h := ratCast_le_of_le hq.2
      push_cast at h
      exact h

/-- C8 witness: the corrected bounds at a concrete seed and stream. -/
theorem c8_amended_witness :
    (fDemo.demo_prediction uHalf [(⟨1, 2, 3⟩ : Reading)]).predictions.length
      = fDemo.config.forecast_steps
    ∧ (fDemo.demo_prediction uHalf [(⟨1, 2, 3⟩ : Reading)]).mode = "demo"
    ∧ (demo_predict (⟨1, 2, 3⟩ : Reading) 3 uHalf).predictions.length = 3 := by
  have h := c8_amended fDemo uHalf [(⟨1, 2, 3⟩ : Reading)] uHalf_valid
  exact ⟨h.1, h.2.2.2.2.1, (h.2.2.2.2.2 (⟨1, 2, 3⟩ : Reading) 3).1⟩

/-! C9: model-mode anomaly score. -/

/-- C9: in model mode every successful prediction is tagged model and
scores its anomaly as the Euclidean distance between the first
predicted reading and the last observed reading, divided by 1000,
clamped to [0, 1] and rounded to 4 decimal places. -/
theorem c9_model_anomaly (f : LSTMForecaster) (m : Engine) (u : ℕ → ℚ)
    (rs : List RawReading) (points : List Reading) (r : ForecastResult)
    (hm : f.model = some m) (hd : f.is_demo_mode = false)
    (hp : toPoints rs = .ok points)
    (hok : f.predict u rs = .ok r) :
    r.mode = "model"
    ∧ r.anomaly_score
      = round4 (min (max (dist3 (r.predictions.headD (⟨0, 0, 0⟩ : Reading))
          (points.getLastD (⟨0, 0, 0⟩ : Reading)) / 1000) 0) 1) := by
  obtain ⟨points0, hp0, hcase⟩ := predict_ok_cases f u rs r hok
  rw [hp] at hp0
  simp only [Except.ok.injEq] at hp0
  subst hp0
  rcases hcase with ⟨hdemo, -⟩ | ⟨-, hmode, -, hscore⟩
  · rcases hdemo with h | h
    · rw [hm] at h
      exact absurd h (by simp)
    · rw [hd] at h
      exact absurd h (by simp)
  · exact ⟨hmode, hscore⟩

/-- C9 witness: the anomaly formula at a concrete one-step model-mode
prediction. -/
theorem c9_model_anomaly_witness :
    c9res.mode = "model"
    ∧ c9res.anomaly_score
      = round4 (min (max (dist3 (c9res.predictions.headD (⟨0, 0, 0⟩ : Reading))
          (([(⟨3, 4, 0⟩ : Reading)] : List Reading).getLastD (⟨0, 0, 0⟩ : Reading)) / 1000) 0) 1) :=
  c9_model_anomaly fW eng1 uHalf [rw34] [(⟨3, 4, 0⟩ : Reading)] c9res rfl rfl rfl rfl

/-! C10: default sequence synthesis. -/

/-- C10: a payload without a non-empty sequence list is not rejected —
the app synthesizes `sequence_length` identical readings from the
payload fields with the defaults tds 0, temperature 25, moisture 350,
and the predict route answers 200 success (given a well-shaped engine
in model mode). -/
theorem c10_default_sequence (f : LSTMForecaster) (env : AppEnv) (u : ℕ → ℚ)
    (payload : PredictPayload)
    (hseq : payload.sequence = none ∨ payload.sequence = some [])
    (hlen : 0 < f.config.sequence_length)
    (hfs : 0 < f.config.forecast_steps)
    (heng : ∀ m, f.model = some m → ∀ w, (m w).length = f.config.forecast_steps * 3) :
    payload_to_sequence payload f.config.sequence_length
      = List.replicate f.config.sequence_length (default_seed payload)
    ∧ (predict env (some f) u payload).success = true
    ∧ (predict env (some f) u payload).status = 200 := by
  have hseq2 : payload_to_sequence payload f.config.sequence_length
      = List.replicate f.config.sequence_length (default_seed payload) := by
    unfold payload_to_sequence
    rcases hseq with h | h
    · rw [h]
    · rw [h]
      simp
  have hpts : toPoints (payload_to_sequence payload f.config.sequence_length)
      = .ok (List.replicate f.config.sequence_length
          (⟨payload.tds.getD 0, payload.temperature.getD 25, payload.moisture.getD 350⟩ : Reading)) := by
    rw [hseq2]
    exact toPoints_replicate _ _ _ _
  have hne : ¬(payload_to_sequence payload f.config.sequence_length).length = 0 := by
    rw [hseq2]
    simp
    omega
  have hsucc : ∃ r, f.predict u (payload_to_sequence payload f.config.sequence_length)
      = .ok r := by
    unfold LSTMForecaster.predict
    rw [if_neg hne, hpts]
    cases hm : f.model with
    | none => exact ⟨_, rfl⟩
    | some m =>
      cases hdm : f.is_demo_mode with
      | true => exact ⟨_, rfl⟩
      | false =>
        dsimp only
        rw [if_neg (by simp)]
        split
        · rename_i hsh
          split
          · rename_i hnil
            have hl0 := congrArg List.length hnil
            simp only [List.length_map, toTriples_length, List.length_nil] at hl0
            omega
          · exact ⟨_, rfl⟩
        · rename_i hsh
          exact absurd (heng m hm _) hsh
  obtain ⟨r, hr⟩ := hsucc
  refine ⟨hseq2, ?_, ?_⟩
  · simp [predict, hr]
  · simp [predict, hr]

/-- C10 witness: the synthesized default sequence and the successful
response at a concrete empty payload. -/
theorem c10_default_sequence_witness :
    payload_to_sequence emptyPayload fDemo.config.sequence_length
      = List.replicate fDemo.config.sequence_length (default_seed emptyPayload)
    ∧ (predict envD (some fDemo) uHalf emptyPayload).success = true := by
  have h := c10_default_sequence fDemo envD uHalf emptyPayload (Or.inl rfl) (by decide)
    (by decide) (fun m hm => nomatch hm)
  exact ⟨h.1, h.2.1⟩

end Pandora
